import Mathlib

/-!
# Verification of `reviewer.py` (Codebase-Quality)

A shallow embedding of the static-analysis engine in `src/reviewer.py`:
the Python AST fragment the rules inspect, the four tree-based rules
(`LongFunctionRule`, `DeprecatedImportRule`, `TooManyParametersRule`,
`DeepNestingRule`), the non-tree `check_large_file` check, and the
orchestrating `analyze_file`, together with theorems settling the
specification claims about them.

Conventions of the embedding:
* Python dicts produced by `Rule.report` / `check_large_file` become the
  `Diagnostic` structure.
* `ast.parse` is modelled abstractly: a file carries an `Option Ast`
  (`none` = the parse raised `SyntaxError`).  Reading the file is
  modelled by `ReadResult`: opening/`readlines` may raise an `OSError`
  or a `UnicodeDecodeError`, neither of which `analyze_file` catches,
  so `analyze_file` returns `Except PyError (List Diagnostic)`.
* `ast.NodeVisitor` dispatch is specialised per rule: a rule with a
  `visit_Foo` method runs that method on `Foo` nodes; every other node
  falls back to `generic_visit`, i.e. a pre-order walk of the children.
  `DeepNestingRule` overrides `visit` itself, threading a depth counter.
* Only statement-level children are modelled (expression subtrees of
  Python can never contain `If`/`For`/`While`/`FunctionDef`/import
  statement nodes, so they contribute no diagnostics).
-/

/-- The fields of a Python `ast.arguments` object that the rules can see:
ordered parameter-name lists plus the optional `*args` / `**kwargs`.
`TooManyParametersRule` reads only the `args` field (`len(node.args.args)`). -/
structure Arguments where
  posonlyargs : List String
  args : List String
  kwonlyargs : List String
  vararg : Option String
  kwarg : Option String
deriving Repr, DecidableEq

mutual

/-- The statement-level fragment of the Python AST that `reviewer.py`
inspects.  Each constructor records the 1-based `lineno` of the construct;
`functionDef` also records `end_lineno`, its `arguments`, and its body.
`other` stands for any statement kind none of the rules matches on
(`ClassDef`, `Try`, `With`, expression statements, ...): the visitors
reach it only through `generic_visit`, which walks its children. -/
inductive Ast where
  | module (body : AstList)
  | functionDef (name : String) (lineno : Nat) (endLineno : Nat)
      (args : Arguments) (body : AstList)
  | asyncFunctionDef (name : String) (lineno : Nat) (endLineno : Nat)
      (args : Arguments) (body : AstList)
  | importStmt (lineno : Nat) (names : List String)
  | importFrom (lineno : Nat) (moduleName : Option String) (names : List String)
  | ifStmt (lineno : Nat) (body : AstList) (orelse : AstList)
  | forStmt (lineno : Nat) (body : AstList) (orelse : AstList)
  | whileStmt (lineno : Nat) (body : AstList) (orelse : AstList)
  | other (lineno : Nat) (children : AstList)
deriving Repr, DecidableEq

/-- A list of sibling AST nodes (kept mutual with `Ast` so that all
recursions below are structural). -/
inductive AstList where
  | nil
  | cons (a : Ast) (as : AstList)
deriving Repr, DecidableEq

end

/-- Build an `AstList` from an ordinary list (convenience for examples). -/
def astList : List Ast → AstList
  | [] => AstList.nil
  | a :: as => AstList.cons a (astList as)

/-- One finding, i.e. the dict built by `Rule.report` (and by
`check_large_file`): file, rule_id, category, severity, message, line. -/
structure Diagnostic where
  file : String
  rule_id : String
  category : String
  severity : String
  message : String
  line : Nat
deriving Repr, DecidableEq

/-- `Rule.report`: assemble one diagnostic dict. -/
def report (file_path rule_id category severity message : String)
    (line : Nat) : Diagnostic :=
  { file := file_path, rule_id := rule_id, category := category,
    severity := severity, message := message, line := line }

/-! ## 1. Long Function Rule (`MAINT_001`)

`visit_FunctionDef`: report when `node.end_lineno - node.lineno > 50`,
then `generic_visit(node)`.  All other node kinds get the inherited
`generic_visit`, so the walk is a pre-order traversal of the whole tree. -/

/-- Message of `LongFunctionRule.report`:
`f"Function '{node.name}' too long ({length} lines)"`. -/
def longFunctionMessage (name : String) (length : Int) : String :=
  "Function \x27" ++ name ++ "\x27 too long (" ++ toString length ++ " lines)"

mutual

/-- `LongFunctionRule.visit` on one node (`NodeVisitor` dispatch:
`visit_FunctionDef` on `FunctionDef`, `generic_visit` otherwise). -/
def longFunctionVisit (fp : String) : Ast → List Diagnostic
  | Ast.module body => longFunctionVisitList fp body
  | Ast.functionDef name lineno endLineno _ body =>
      (if (endLineno : Int) - (lineno : Int) > 50 then
        [report fp "MAINT_001" "Maintainability" "MEDIUM"
          (longFunctionMessage name ((endLineno : Int) - (lineno : Int))) lineno]
      else []) ++ longFunctionVisitList fp body
  | Ast.asyncFunctionDef _ _ _ _ body => longFunctionVisitList fp body
  | Ast.importStmt _ _ => []
  | Ast.importFrom _ _ _ => []
  | Ast.ifStmt _ body orelse =>
      longFunctionVisitList fp body ++ longFunctionVisitList fp orelse
  | Ast.forStmt _ body orelse =>
      longFunctionVisitList fp body ++ longFunctionVisitList fp orelse
  | Ast.whileStmt _ body orelse =>
      longFunctionVisitList fp body ++ longFunctionVisitList fp orelse
  | Ast.other _ children => longFunctionVisitList fp children

/-- `generic_visit` child loop of `LongFunctionRule`. -/
def longFunctionVisitList (fp : String) : AstList → List Diagnostic
  | AstList.nil => []
  | AstList.cons a as => longFunctionVisit fp a ++ longFunctionVisitList fp as

end

/-! ## 2. Deprecated Import Rule (`DEPR_001`) -/

/-- `DeprecatedImportRule.DEPRECATED_MODULES = {"imp", "optparse"}`. -/
def DEPRECATED_MODULES : List String := ["imp", "optparse"]

/-- Message of `DeprecatedImportRule.report`:
`f"Deprecated module '{alias.name}' used"`. -/
def deprecatedMessage (moduleName : String) : String :=
  "Deprecated module \x27" ++ moduleName ++ "\x27 used"

/-- `visit_Import`: one report per alias whose name is deprecated
(no `generic_visit`; `Import` has no statement children anyway). -/
def visitImport (fp : String) (lineno : Nat) (names : List String) :
    List Diagnostic :=
  (names.filter (fun nm => nm ∈ DEPRECATED_MODULES)).map
    (fun nm => report fp "DEPR_001" "Deprecated" "HIGH" (deprecatedMessage nm) lineno)

/-- `visit_ImportFrom`: report when `node.module` is deprecated
(`node.module` is `None` for relative imports, which never match). -/
def visitImportFrom (fp : String) (lineno : Nat) (moduleName : Option String) :
    List Diagnostic :=
  match moduleName with
  | none => []
  | some m =>
      if m ∈ DEPRECATED_MODULES then
        [report fp "DEPR_001" "Deprecated" "HIGH" (deprecatedMessage m) lineno]
      else []

mutual

/-- `DeprecatedImportRule.visit` on one node. -/
def deprecatedImportVisit (fp : String) : Ast → List Diagnostic
  | Ast.module body => deprecatedImportVisitList fp body
  | Ast.functionDef _ _ _ _ body => deprecatedImportVisitList fp body
  | Ast.asyncFunctionDef _ _ _ _ body => deprecatedImportVisitList fp body
  | Ast.importStmt lineno names => visitImport fp lineno names
  | Ast.importFrom lineno moduleName _ => visitImportFrom fp lineno moduleName
  | Ast.ifStmt _ body orelse =>
      deprecatedImportVisitList fp body ++ deprecatedImportVisitList fp orelse
  | Ast.forStmt _ body orelse =>
      deprecatedImportVisitList fp body ++ deprecatedImportVisitList fp orelse
  | Ast.whileStmt _ body orelse =>
      deprecatedImportVisitList fp body ++ deprecatedImportVisitList fp orelse
  | Ast.other _ children => deprecatedImportVisitList fp children

/-- `generic_visit` child loop of `DeprecatedImportRule`. -/
def deprecatedImportVisitList (fp : String) : AstList → List Diagnostic
  | AstList.nil => []
  | AstList.cons a as =>
      deprecatedImportVisit fp a ++ deprecatedImportVisitList fp as

end

/-! ## 3. Too Many Parameters Rule (`MAINT_002`) -/

/-- Message of `TooManyParametersRule.report`:
`f"Function '{node.name}' has too many parameters ({len(node.args.args)})"`. -/
def tooManyParametersMessage (name : String) (count : Nat) : String :=
  "Function \x27" ++ name ++ "\x27 has too many parameters (" ++ toString count ++ ")"

mutual

/-- `TooManyParametersRule.visit` on one node (`visit_FunctionDef` checks
`len(node.args.args) > 5`; everything else is `generic_visit`). -/
def tooManyParametersVisit (fp : String) : Ast → List Diagnostic
  | Ast.module body => tooManyParametersVisitList fp body
  | Ast.functionDef name lineno _ args body =>
      (if args.args.length > 5 then
        [report fp "MAINT_002" "Maintainability" "MEDIUM"
          (tooManyParametersMessage name args.args.length) lineno]
      else []) ++ tooManyParametersVisitList fp body
  | Ast.asyncFunctionDef _ _ _ _ body => tooManyParametersVisitList fp body
  | Ast.importStmt _ _ => []
  | Ast.importFrom _ _ _ => []
  | Ast.ifStmt _ body orelse =>
      tooManyParametersVisitList fp body ++ tooManyParametersVisitList fp orelse
  | Ast.forStmt _ body orelse =>
      tooManyParametersVisitList fp body ++ tooManyParametersVisitList fp orelse
  | Ast.whileStmt _ body orelse =>
      tooManyParametersVisitList fp body ++ tooManyParametersVisitList fp orelse
  | Ast.other _ children => tooManyParametersVisitList fp children

/-- `generic_visit` child loop of `TooManyParametersRule`. -/
def tooManyParametersVisitList (fp : String) : AstList → List Diagnostic
  | AstList.nil => []
  | AstList.cons a as =>
      tooManyParametersVisit fp a ++ tooManyParametersVisitList fp as

end

/-! ## 4. Deep Nesting Rule (`SMELL_001`)

`DeepNestingRule` overrides `visit(node, depth=0)` wholesale: on an `If`,
`For` or `While` node the depth is incremented and, when it exceeds
`MAX_DEPTH = 3`, a report is emitted at that node; then every child is
visited with the current depth. -/

mutual

/-- `DeepNestingRule.visit node depth` (the Python default is `depth=0`). -/
def deepNestingVisit (fp : String) : Ast → Nat → List Diagnostic
  | Ast.module body, depth => deepNestingVisitList fp body depth
  | Ast.functionDef _ _ _ _ body, depth => deepNestingVisitList fp body depth
  | Ast.asyncFunctionDef _ _ _ _ body, depth => deepNestingVisitList fp body depth
  | Ast.importStmt _ _, _ => []
  | Ast.importFrom _ _ _, _ => []
  | Ast.ifStmt lineno body orelse, depth =>
      (if depth + 1 > 3 then
        [report fp "SMELL_001" "Code Smell" "MEDIUM" "Deep nesting detected" lineno]
      else []) ++ deepNestingVisitList fp body (depth + 1)
        ++ deepNestingVisitList fp orelse (depth + 1)
  | Ast.forStmt lineno body orelse, depth =>
      (if depth + 1 > 3 then
        [report fp "SMELL_001" "Code Smell" "MEDIUM" "Deep nesting detected" lineno]
      else []) ++ deepNestingVisitList fp body (depth + 1)
        ++ deepNestingVisitList fp orelse (depth + 1)
  | Ast.whileStmt lineno body orelse, depth =>
      (if depth + 1 > 3 then
        [report fp "SMELL_001" "Code Smell" "MEDIUM" "Deep nesting detected" lineno]
      else []) ++ deepNestingVisitList fp body (depth + 1)
        ++ deepNestingVisitList fp orelse (depth + 1)
  | Ast.other _ children, depth => deepNestingVisitList fp children depth

/-- Child loop of `DeepNestingRule.visit`: each child gets the same depth. -/
def deepNestingVisitList (fp : String) : AstList → Nat → List Diagnostic
  | AstList.nil, _ => []
  | AstList.cons a as, depth =>
      deepNestingVisit fp a depth ++ deepNestingVisitList fp as depth

end

/-! ## 5. Large File Rule (non-AST) and the analyzer -/

/-- Message of the large-file dict: `f"File too large ({len(lines)} lines)"`. -/
def largeFileMessage (count : Nat) : String :=
  "File too large (" ++ toString count ++ " lines)"

/-- `check_large_file(file_path, max_lines=500)` given the `readlines()`
result: returns the `ORG_001` dict at line 1 when the line count exceeds
`max_lines`, else `None` (the Python function falls off the end). -/
def check_large_file (file_path : String) (lines : List String)
    (max_lines : Nat) : Option Diagnostic :=
  if lines.length > max_lines then
    some (report file_path "ORG_001" "Organization" "MEDIUM"
      (largeFileMessage lines.length) 1)
  else none

/-- Exceptions that `reviewer.py` can raise while reading a file and that
`analyze_file` does not catch: `OSError` (unreadable file) and
`UnicodeDecodeError` (content that is not valid UTF-8). -/
inductive PyError where
  | osError
  | unicodeDecodeError
deriving Repr, DecidableEq

/-- Outcome of opening and reading one file.  On success the file yields
its `readlines()` result and the outcome of `ast.parse` on its text
(`none` = `SyntaxError`). -/
inductive ReadResult where
  | failure (e : PyError)
  | content (lines : List String) (parsed : Option Ast)
deriving Repr, DecidableEq

/-- One input file: its path and what reading it produces. -/
structure FileInput where
  path : String
  read : ReadResult
deriving Repr, DecidableEq

/-- The rule registry built inside `analyze_file`, in source order:
`LongFunctionRule, DeprecatedImportRule, TooManyParametersRule,
DeepNestingRule`.  Each entry is `rule.visit(tree)` reading off
`rule.issues` (for `DeepNestingRule`, `visit` starts at `depth=0`). -/
def ruleRegistry : List (String → Ast → List Diagnostic) :=
  [longFunctionVisit, deprecatedImportVisit, tooManyParametersVisit,
    fun fp tree => deepNestingVisit fp tree 0]

/-- `analyze_file(file_path)`.  Runs `check_large_file` (whose file read
can raise), then reads and parses the text inside `try/except
SyntaxError`; on parse failure only the large-file issue list is
returned; on success every registered rule is run over the tree and its
issues are appended in registry order. -/
def analyze_file (f : FileInput) : Except PyError (List Diagnostic) :=
  match f.read with
  | ReadResult.failure e => Except.error e
  | ReadResult.content lines parsed =>
      let issues :=
        match check_large_file f.path lines 500 with
        | some d => [d]
        | none => []
      match parsed with
      | none => Except.ok issues
      | some tree =>
          Except.ok (ruleRegistry.foldl
            (fun acc rule => acc ++ rule f.path tree) issues)

/-! ## Specification-side definitions and concrete example inputs -/

/-- The diagnostic that `DeepNestingRule.report` emits at line `l`. -/
def smellDiag (fp : String) (l : Nat) : Diagnostic :=
  report fp "SMELL_001" "Code Smell" "MEDIUM" "Deep nesting detected" l

mutual

/-- Specification-side reading of the Deep-Nesting rule, independent of the
reporting logic: collect, in pre-order, every `If`/`For`/`While` node of the
tree paired with the number of enclosing `If`/`For`/`While` constructs
(the node itself included), starting from `d` enclosing constructs. -/
def nestedBranchDepths : Ast → Nat → List (Nat × Nat)
  | Ast.module body, d => nestedBranchDepthsList body d
  | Ast.functionDef _ _ _ _ body, d => nestedBranchDepthsList body d
  | Ast.asyncFunctionDef _ _ _ _ body, d => nestedBranchDepthsList body d
  | Ast.importStmt _ _, _ => []
  | Ast.importFrom _ _ _, _ => []
  | Ast.ifStmt lineno body orelse, d =>
      (lineno, d + 1) :: (nestedBranchDepthsList body (d + 1)
        ++ nestedBranchDepthsList orelse (d + 1))
  | Ast.forStmt lineno body orelse, d =>
      (lineno, d + 1) :: (nestedBranchDepthsList body (d + 1)
        ++ nestedBranchDepthsList orelse (d + 1))
  | Ast.whileStmt lineno body orelse, d =>
      (lineno, d + 1) :: (nestedBranchDepthsList body (d + 1)
        ++ nestedBranchDepthsList orelse (d + 1))
  | Ast.other _ children, d => nestedBranchDepthsList children d

/-- Sibling version of `nestedBranchDepths`: every sibling is enclosed by
the same `d` constructs. -/
def nestedBranchDepthsList : AstList → Nat → List (Nat × Nat)
  | AstList.nil, _ => []
  | AstList.cons a as, d => nestedBranchDepths a d ++ nestedBranchDepthsList as d

end

/-- An `arguments` object with no parameters at all. -/
def emptyArgs : Arguments := ⟨[], [], [], none, none⟩

/-- Four nested `if` statements (`if` → `if` → `if` → `if`), one per line. -/
def fourNestedIfs : Ast :=
  Ast.module (astList [Ast.ifStmt 1 (astList [Ast.ifStmt 2 (astList
    [Ast.ifStmt 3 (astList [Ast.ifStmt 4 AstList.nil AstList.nil])
      AstList.nil]) AstList.nil]) AstList.nil])

/-- Three nested `if` statements. -/
def threeNestedIfs : Ast :=
  Ast.module (astList [Ast.ifStmt 1 (astList [Ast.ifStmt 2 (astList
    [Ast.ifStmt 3 AstList.nil AstList.nil]) AstList.nil]) AstList.nil])

/-- A `for` loop nested inside three `if` statements. -/
def forInThreeIfs : Ast :=
  Ast.module (astList [Ast.ifStmt 1 (astList [Ast.ifStmt 2 (astList
    [Ast.ifStmt 3 (astList [Ast.forStmt 4 AstList.nil AstList.nil])
      AstList.nil]) AstList.nil]) AstList.nil])

/-- An `arguments` object with exactly six plain positional parameters. -/
def sixArgs : Arguments := ⟨[], ["a", "b", "c", "d", "e", "f"], [], none, none⟩

/-- An `arguments` object with exactly five plain positional parameters. -/
def fiveArgs : Arguments := ⟨[], ["a", "b", "c", "d", "e"], [], none, none⟩

/-- An `arguments` object with three plain positional parameters but many
parameters of the other kinds: 4 positional-only, 6 keyword-only, `*args`
and `**kwargs` (13 declared parameters in total, only 3 of them plain). -/
def mixedArgs : Arguments :=
  ⟨["p1", "p2", "p3", "p4"], ["a", "b", "c"],
    ["k1", "k2", "k3", "k4", "k5", "k6"], some "args", some "kwargs"⟩

/-! ## Helper lemmas about `analyze_file` -/

/-- Unfolding of `analyze_file` when the file reads fine but `ast.parse`
raises `SyntaxError`: only the large-file issue (if any) is returned. -/
theorem analyze_file_parseFail (path : String) (lines : List String) :
    analyze_file ⟨path, ReadResult.content lines none⟩ =
      Except.ok (check_large_file path lines 500).toList := by
  cases h : check_large_file path lines 500 <;>
    simp [analyze_file, h, Option.toList]

/-- Unfolding of `analyze_file` on a file that parses: the large-file
issue first, then the four rules' issues in registry order. -/
theorem analyze_file_parsed (path : String) (lines : List String) (tree : Ast) :
    analyze_file ⟨path, ReadResult.content lines (some tree)⟩ =
      Except.ok ((check_large_file path lines 500).toList
        ++ (longFunctionVisit path tree
        ++ (deprecatedImportVisit path tree
        ++ (tooManyParametersVisit path tree
        ++ deepNestingVisit path tree 0)))) := by
  cases h : check_large_file path lines 500 <;>
    simp [analyze_file, ruleRegistry, h, Option.toList, List.foldl,
      List.append_assoc]

/-! ## Claim theorems -/

/-- Claim C1, counterexample: the claim says `analyze` never raises even
on non-UTF-8 input, but `check_large_file` opens the file with
`encoding="utf-8"` outside any `try`, so the `UnicodeDecodeError` (and
likewise an `OSError` for an unreadable file) propagates out of
`analyze_file`: on such an input the result is an uncaught exception,
not a sequence of diagnostics. -/
theorem C1_counterexample :
    analyze_file ⟨"bad.py", ReadResult.failure PyError.unicodeDecodeError⟩ =
      Except.error PyError.unicodeDecodeError := rfl

/-- Claim C1, amended: for every file whose content can be read and
decoded (however pathological otherwise, including content that fails to
parse), `analyze_file` raises nothing and returns a list of diagnostics. -/
theorem C1_analyze_total_on_readable (path : String) (lines : List String)
    (parsed : Option Ast) :
    ∃ ds : List Diagnostic,
      analyze_file ⟨path, ReadResult.content lines parsed⟩ = Except.ok ds := by
  cases parsed <;> exact ⟨_, rfl⟩

/-- Claim C3: `check_large_file` returns the `ORG_001` diagnostic at
line 1 exactly when the line count exceeds 500 (`501` lines trigger it,
`500` do not), and the check's result is returned by `analyze_file` even
when the content fails to parse. -/
theorem C3_large_file_boundary (fp : String) (lines : List String) :
    (check_large_file fp lines 500 =
        some (report fp "ORG_001" "Organization" "MEDIUM"
          (largeFileMessage lines.length) 1) ↔ 500 < lines.length)
    ∧ (check_large_file fp lines 500 = none ↔ lines.length ≤ 500)
    ∧ analyze_file ⟨fp, ReadResult.content lines none⟩ =
        Except.ok (check_large_file fp lines 500).toList
    ∧ (check_large_file fp (List.replicate 501 "x") 500).isSome = true
    ∧ check_large_file fp (List.replicate 500 "x") 500 = none := by
  refine ⟨?_, ?_, analyze_file_parseFail fp lines, ?_, ?_⟩
  · by_cases hl : lines.length > 500 <;> simp [check_large_file, hl]
  · by_cases hl : lines.length > 500 <;> simp [check_large_file, hl]
    all_goals omega
  · simp only [check_large_file, List.length_replicate]
    norm_num
  · simp only [check_large_file, List.length_replicate]
    norm_num

/-- Claim C4: when parsing fails, `analyze_file` returns exactly the
large-file result (possibly empty); every diagnostic it returns for such
a file has rule id `ORG_001` — in particular the parse failure itself
produces no diagnostic and no tree rule runs. -/
theorem C4_parse_failure_degrades (path : String) (lines : List String) :
    analyze_file ⟨path, ReadResult.content lines none⟩ =
      Except.ok (check_large_file path lines 500).toList
    ∧ ((check_large_file path lines 500).toList.all
        (fun d => decide (d.rule_id = "ORG_001")) = true) := by
  refine ⟨analyze_file_parseFail path lines, ?_⟩
  by_cases hl : lines.length > 500 <;> simp [check_large_file, hl, report]

/-- Claim C8: on a file that parses, the output of `analyze_file` is the
large-file diagnostic first (when present), then each rule's diagnostics
in the fixed registry order `LongFunctionRule, DeprecatedImportRule,
TooManyParametersRule, DeepNestingRule`, each rule's own pre-order
emission order preserved. -/
theorem C8_output_order (path : String) (lines : List String) (tree : Ast) :
    analyze_file ⟨path, ReadResult.content lines (some tree)⟩ =
      Except.ok ((check_large_file path lines 500).toList
        ++ (longFunctionVisit path tree
        ++ (deprecatedImportVisit path tree
        ++ (tooManyParametersVisit path tree
        ++ deepNestingVisit path tree 0)))) :=
  analyze_file_parsed path lines tree

/-- Claim C9: `analyze_file` is deterministic — it is a function of the
file's path and content alone, so two runs on unchanged content yield
identical diagnostic sequences. -/
theorem C9_deterministic (f g : FileInput) (hpath : f.path = g.path)
    (hread : f.read = g.read) : analyze_file f = analyze_file g := by
  cases f
  cases g
  cases hpath
  cases hread
  rfl

/-- Witness for C9 at a concrete input. -/
theorem C9_witness :
    analyze_file ⟨"w.py", ReadResult.content ["x"] none⟩ =
      analyze_file ⟨"w.py", ReadResult.content ["x"] none⟩ :=
  C9_deterministic ⟨"w.py", ReadResult.content ["x"] none⟩
    ⟨"w.py", ReadResult.content ["x"] none⟩ rfl rfl

mutual

/-- `DeepNestingRule.visit` emits exactly one `SMELL_001` diagnostic for
each `If`/`For`/`While` node whose enclosing-construct count (itself
included) exceeds 3, in pre-order, at that node's line. -/
theorem deepNesting_eq_spec (fp : String) :
    ∀ (t : Ast) (d : Nat),
      deepNestingVisit fp t d =
        ((nestedBranchDepths t d).filter (fun p => decide (3 < p.2))).map
          (fun p => smellDiag fp p.1)
  | Ast.module b, d => by
      simp [deepNestingVisit, nestedBranchDepths,
        deepNestingList_eq_spec fp b d]
  | Ast.functionDef _ _ _ _ b, d => by
      simp [deepNestingVisit, nestedBranchDepths,
        deepNestingList_eq_spec fp b d]
  | Ast.asyncFunctionDef _ _ _ _ b, d => by
      simp [deepNestingVisit, nestedBranchDepths,
        deepNestingList_eq_spec fp b d]
  | Ast.importStmt _ _, d => by
      simp [deepNestingVisit, nestedBranchDepths]
  | Ast.importFrom _ _ _, d => by
      simp [deepNestingVisit, nestedBranchDepths]
  | Ast.ifStmt l b o, d => by
      by_cases h : 3 < d + 1 <;>
        simp [deepNestingVisit, nestedBranchDepths, h, smellDiag,
          deepNestingList_eq_spec fp b (d + 1),
          deepNestingList_eq_spec fp o (d + 1), List.filter_append,
          List.map_append]
  | Ast.forStmt l b o, d => by
      by_cases h : 3 < d + 1 <;>
        simp [deepNestingVisit, nestedBranchDepths, h, smellDiag,
          deepNestingList_eq_spec fp b (d + 1),
          deepNestingList_eq_spec fp o (d + 1), List.filter_append,
          List.map_append]
  | Ast.whileStmt l b o, d => by
      by_cases h : 3 < d + 1 <;>
        simp [deepNestingVisit, nestedBranchDepths, h, smellDiag,
          deepNestingList_eq_spec fp b (d + 1),
          deepNestingList_eq_spec fp o (d + 1), List.filter_append,
          List.map_append]
  | Ast.other _ c, d => by
      simp [deepNestingVisit, nestedBranchDepths,
        deepNestingList_eq_spec fp c d]

/-- Sibling version of `deepNesting_eq_spec`. -/
theorem deepNestingList_eq_spec (fp : String) :
    ∀ (ts : AstList) (d : Nat),
      deepNestingVisitList fp ts d =
        ((nestedBranchDepthsList ts d).filter (fun p => decide (3 < p.2))).map
          (fun p => smellDiag fp p.1)
  | AstList.nil, d => by
      simp [deepNestingVisitList, nestedBranchDepthsList]
  | AstList.cons a as, d => by
      simp [deepNestingVisitList, nestedBranchDepthsList,
        deepNesting_eq_spec fp a d, deepNestingList_eq_spec fp as d,
        List.filter_append, List.map_append]

end

/-- Claim C2: the Deep-Nesting rule flags exactly the `If`/`For`/`While`
nodes whose count of enclosing `If`/`For`/`While` constructs (themselves
included) exceeds 3, at the node's line, the depth being threaded
unchanged into children (hence not cumulative across siblings); on four
nested `if`s it fires once, on the innermost one (line 4), on three
nested `if`s never, and a `for` inside three `if`s still counts. -/
theorem C2_deep_nesting (fp : String) (t : Ast) (d : Nat) :
    deepNestingVisit fp t d =
      ((nestedBranchDepths t d).filter (fun p => decide (3 < p.2))).map
        (fun p => smellDiag fp p.1)
    ∧ deepNestingVisit fp fourNestedIfs 0 = [smellDiag fp 4]
    ∧ deepNestingVisit fp threeNestedIfs 0 = []
    ∧ deepNestingVisit fp forInThreeIfs 0 = [smellDiag fp 4] :=
  ⟨deepNesting_eq_spec fp t d, rfl, rfl, rfl⟩

/-- Claim C5: the Deprecated-Import rule emits one `DEPR_001` diagnostic,
at the statement's line, per imported alias whose module name is in the
denylist `{"imp", "optparse"}`: `import imp` and
`from optparse import OptionParser` each yield exactly one, `import json`
yields none. -/
theorem C5_deprecated_import (fp : String) (l : Nat) (names : List String) :
    deprecatedImportVisit fp (Ast.importStmt l names) =
      (names.filter (fun nm => nm ∈ DEPRECATED_MODULES)).map
        (fun nm =>
          report fp "DEPR_001" "Deprecated" "HIGH" (deprecatedMessage nm) l)
    ∧ deprecatedImportVisit fp (Ast.importStmt l ["imp"]) =
        [report fp "DEPR_001" "Deprecated" "HIGH" (deprecatedMessage "imp") l]
    ∧ deprecatedImportVisit fp
        (Ast.importFrom l (some "optparse") ["OptionParser"]) =
        [report fp "DEPR_001" "Deprecated" "HIGH"
          (deprecatedMessage "optparse") l]
    ∧ deprecatedImportVisit fp (Ast.importStmt l ["json"]) = [] :=
  ⟨rfl, rfl, rfl, rfl⟩

/-- Claim C6: the Long-Function rule fires on a function definition
exactly when `end_lineno - lineno` is strictly greater than 50: a span of
51 triggers `MAINT_001` at the definition's line, a span of 50 does not. -/
theorem C6_long_function (fp name : String) (l el : Nat) (args : Arguments) :
    longFunctionVisit fp (Ast.functionDef name l el args AstList.nil) =
      (if (el : Int) - (l : Int) > 50 then
        [report fp "MAINT_001" "Maintainability" "MEDIUM"
          (longFunctionMessage name ((el : Int) - (l : Int))) l]
      else [])
    ∧ (longFunctionVisit fp (Ast.functionDef name l el args AstList.nil) ≠ []
        ↔ (el : Int) - (l : Int) > 50)
    ∧ longFunctionVisit fp (Ast.functionDef name 1 52 args AstList.nil) =
        [report fp "MAINT_001" "Maintainability" "MEDIUM"
          (longFunctionMessage name 51) 1]
    ∧ longFunctionVisit fp (Ast.functionDef name 1 51 args AstList.nil) = [] := by
  refine ⟨?_, ?_, ?_, ?_⟩
  · simp [longFunctionVisit, longFunctionVisitList]
  · by_cases h : (el : Int) - (l : Int) > 50 <;>
      simp [longFunctionVisit, longFunctionVisitList, h]
  · norm_num [longFunctionVisit, longFunctionVisitList]
  · norm_num [longFunctionVisit, longFunctionVisitList]

/-- Claim C7: the Too-Many-Parameters rule fires on a function definition
exactly when its plain positional parameter count is strictly greater
than 5: six parameters trigger `MAINT_002` at the definition's line with
a message containing "6", five parameters do not. -/
theorem C7_too_many_parameters (fp name : String) (l el : Nat)
    (args : Arguments) :
    (tooManyParametersVisit fp (Ast.functionDef name l el args AstList.nil)
        ≠ [] ↔ args.args.length > 5)
    ∧ tooManyParametersVisit fp (Ast.functionDef name l el sixArgs AstList.nil)
        = [report fp "MAINT_002" "Maintainability" "MEDIUM"
            (tooManyParametersMessage name 6) l]
    ∧ '6' ∈ (tooManyParametersMessage "f" 6).data
    ∧ tooManyParametersVisit fp (Ast.functionDef name l el fiveArgs AstList.nil)
        = [] := by
  refine ⟨?_, ?_, ?_, ?_⟩
  · by_cases h : args.args.length > 5 <;>
      simp [tooManyParametersVisit, tooManyParametersVisitList, h]
  · simp [tooManyParametersVisit, tooManyParametersVisitList, sixArgs]
  · decide
  · simp [tooManyParametersVisit, tooManyParametersVisitList, fiveArgs]

/-- Claim C10: the Long-Function and Too-Many-Parameters rules match only
synchronous `FunctionDef` nodes, and the count compared against 5 is the
number of plain positional parameters only: an async definition emits
nothing from either rule (its body is still walked), and a definition
with 3 plain positional parameters among 13 declared ones (4
positional-only, 6 keyword-only, `*args`, `**kwargs`) does not fire. -/
theorem C10_sync_only_plain_params (fp name : String) (l el : Nat)
    (args : Arguments) (body : AstList) :
    (tooManyParametersVisit fp (Ast.functionDef name l el args AstList.nil)
        = [] ↔ args.args.length ≤ 5)
    ∧ tooManyParametersVisit fp (Ast.functionDef name l el mixedArgs AstList.nil)
        = []
    ∧ tooManyParametersVisit fp (Ast.asyncFunctionDef name l el args body) =
        tooManyParametersVisitList fp body
    ∧ longFunctionVisit fp (Ast.asyncFunctionDef name l el args body) =
        longFunctionVisitList fp body
    ∧ tooManyParametersVisit fp (Ast.asyncFunctionDef name l el args AstList.nil)
        = []
    ∧ longFunctionVisit fp (Ast.asyncFunctionDef name l el args AstList.nil)
        = [] := by
  refine ⟨?_, ?_, rfl, rfl, rfl, rfl⟩
  · by_cases h : args.args.length > 5 <;>
      simp [tooManyParametersVisit, tooManyParametersVisitList, h]
    all_goals omega
  · simp [tooManyParametersVisit, tooManyParametersVisitList, mixedArgs]
